import Mathlib

/-!
Shallow embedding of the MLOps monitor API core (src/api/app.py and
src/api/endpoints.py): prediction ingestion, feedback correlation,
background-task dispatch, and the metrics / data-drift query endpoints.
File-system state (the `feedback_data` directories) is modelled as
association lists keyed by the file name (the record id); `open(path, "w")`
is modelled as an overwriting write.  Wall-clock time is passed explicitly
as a natural number of seconds.
-/

namespace MLMonitor

/-- Request body of POST /api/v1/predictions (pydantic model `Prediction`
in src/api/app.py).  Python floats are modelled as rationals; the
`features` and `metadata` dicts are opaque string-keyed mappings. -/
structure Prediction where
  model_version : String
  prediction : Rat
  features : List (String × String)
  timestamp : Nat
  metadata : List (String × String)
deriving DecidableEq

/-- Request body of POST /api/v1/feedback (pydantic model `Feedback`). -/
structure Feedback where
  prediction_id : String
  actual_value : Rat
  timestamp : Nat
  metadata : List (String × String)
deriving DecidableEq

/-- The JSON object written to feedback_data/predictions/<id>.json:
`prediction.dict()` with the generated `id` added. -/
structure PredictionRecord where
  id : String
  model_version : String
  prediction : Rat
  features : List (String × String)
  timestamp : Nat
  metadata : List (String × String)
deriving DecidableEq

/-- Background tasks queued via `background_tasks.add_task` in
src/api/app.py.  `check_data_drift` receives the prediction features;
`check_model_drift` and `calculate_metrics` receive the loaded prediction
data and the feedback data. -/
inductive BackgroundTask where
  | check_data_drift (features : List (String × String))
  | check_model_drift (prediction_data : PredictionRecord) (feedback_data : Feedback)
  | calculate_metrics (prediction_data : PredictionRecord) (feedback_data : Feedback)
deriving DecidableEq

/-- Result of an endpoint call: a successful JSON body, or an
HTTPException carrying a status code and detail string. -/
inductive ApiResult (α : Type) where
  | ok (body : α)
  | httpError (status : Nat) (detail : String)
deriving DecidableEq

/-- Server-side mutable state: the two storage directories plus the queue
of background tasks registered with the framework. -/
structure ServerState where
  predictions : List (String × PredictionRecord)
  feedbacks : List (String × Feedback)
  tasks : List BackgroundTask
deriving DecidableEq

/-- Lookup of a file by name in a directory (association list). -/
def alookup {α : Type} (k : String) : List (String × α) → Option α
  | [] => none
  | (k2, v) :: rest => if k2 = k then some v else alookup k rest

/-- Semantics of `open(path, "w")` followed by `json.dump`: the file is
created, or silently overwritten when it already exists. -/
def fsWrite {α : Type} (store : List (String × α)) (k : String) (v : α) :
    List (String × α) :=
  (k, v) :: store.filter (fun kv => kv.1 ≠ k)

/-- Models `datetime.now().strftime('%Y%m%d%H%M%S')`: an injective
rendering of the current wall-clock second, so two calls within the same
second produce the same string. -/
def strftimeSecond (now : Nat) : String :=
  toString now

/-- Identifier generation in `record_prediction`
(src/api/app.py lines 108-111). -/
def newId (model_version : String) (now : Nat) : String :=
  model_version ++ "-" ++ strftimeSecond now

/-- The record saved by `record_prediction`: `prediction.dict()` with the
generated id added. -/
def predictionRecordOf (p : Prediction) (prediction_id : String) :
    PredictionRecord :=
  { id := prediction_id
    model_version := p.model_version
    prediction := p.prediction
    features := p.features
    timestamp := p.timestamp
    metadata := p.metadata }

/-- POST /api/v1/predictions (`record_prediction` in src/api/app.py):
generate the id from the model version and the current second, write the
record file (overwriting), queue a data-drift check, and return the id. -/
def record_prediction (st : ServerState) (p : Prediction) (now : Nat) :
    ServerState × ApiResult String :=
  let prediction_id := newId p.model_version now
  let prediction_data := predictionRecordOf p prediction_id
  ({ st with
      predictions := fsWrite st.predictions prediction_id prediction_data
      tasks := st.tasks ++ [BackgroundTask.check_data_drift p.features] },
   ApiResult.ok prediction_id)

/-- POST /api/v1/feedback (`record_feedback` in src/api/app.py): 404 if no
prediction file exists for the id; otherwise load the prediction data,
write the feedback file (overwriting), and queue the model-drift and
metric tasks. -/
def record_feedback (st : ServerState) (fb : Feedback) :
    ServerState × ApiResult String :=
  match alookup fb.prediction_id st.predictions with
  | none => (st, ApiResult.httpError 404 "Prediction ID not found")
  | some prediction_data =>
      ({ st with
          feedbacks := fsWrite st.feedbacks fb.prediction_id fb
          tasks := st.tasks ++
            [BackgroundTask.check_model_drift prediction_data fb,
             BackgroundTask.calculate_metrics prediction_data fb] },
       ApiResult.ok "feedback recorded")

/-- Framework semantics of queued background tasks: after the response is
sent, each queued task is invoked exactly once (fire and forget); there is
no retry loop anywhere in the code.  The collaborator outcome is a
parameter (true = success, false = failure); the pipeline records each
attempt and its outcome. -/
def runTasks (collab : BackgroundTask → Bool) (tasks : List BackgroundTask) :
    List (BackgroundTask × Bool) :=
  tasks.map (fun t => (t, collab t))

/-- Number of execution attempts the dispatch performs for a given task. -/
def attemptCount (runLog : List (BackgroundTask × Bool)) (t : BackgroundTask) :
    Nat :=
  (runLog.filter (fun e => e.1 = t)).length

/-- Query parameters of GET /api/v1/metrics (pydantic model `MetricQuery`
in src/api/endpoints.py). -/
structure MetricQuery where
  start_time : Option Nat
  end_time : Option Nat
  model_version : Option String
  metric_names : Option (List String)
deriving DecidableEq

/-- One entry of the metrics response body. -/
structure MetricEntry where
  name : String
  value : Rat
  timestamp : Nat
deriving DecidableEq

/-- GET /api/v1/metrics (`get_metrics` in src/api/endpoints.py): returns
hardcoded mock data, ignoring every field of the query. -/
def get_metrics (_q : MetricQuery) (now : Nat) : ApiResult (List MetricEntry) :=
  ApiResult.ok
    [{ name := "accuracy", value := 95 / 100, timestamp := now },
     { name := "f1_score", value := 92 / 100, timestamp := now }]

/-- A file in feedback_data/drift_reports: its name, its modification
time, and its JSON content (opaque). -/
structure ReportFile where
  name : String
  mtime : Nat
  data : String
deriving DecidableEq

/-- Response body of GET /api/v1/drift/data: either the literal
empty-list body, or the content of the selected report. -/
inductive DriftBody where
  | noReports
  | latestData (data : String)
deriving DecidableEq

/-- Semantics of Python `max(reports, key=mtime)`: scan left to right,
replacing the current best only on a strictly greater key, so the first
maximal element wins ties. -/
def pyMaxByMtime (best : ReportFile) : List ReportFile → ReportFile
  | [] => best
  | r :: rest => pyMaxByMtime (if best.mtime < r.mtime then r else best) rest

/-- GET /api/v1/drift/data (`get_data_drift` in src/api/endpoints.py):
when the reports directory is missing or empty, return a successful
empty-list body; otherwise return the content of the report with the
greatest modification time. -/
def get_data_drift (reports : List ReportFile) : ApiResult DriftBody :=
  match reports with
  | [] => ApiResult.ok DriftBody.noReports
  | r :: rs => ApiResult.ok (DriftBody.latestData (pyMaxByMtime r rs).data)

/-- True when the result is an HTTPException (an error response) rather
than a successful body. -/
def isErrorResponse {α : Type} : ApiResult α → Bool
  | ApiResult.ok _ => false
  | ApiResult.httpError _ _ => true

/-- Initial server state: empty storage directories, no queued tasks. -/
def emptyState : ServerState :=
  { predictions := [], feedbacks := [], tasks := [] }

end MLMonitor

namespace MLMonitor

/-- Fixture: a prediction for model "v1". -/
def p_a : Prediction :=
  { model_version := "v1", prediction := 4, features := [("x", "1")],
    timestamp := 100, metadata := [] }

/-- Fixture: a second, different prediction for the same model "v1". -/
def p_b : Prediction :=
  { model_version := "v1", prediction := 3, features := [("y", "2")],
    timestamp := 100, metadata := [] }

/-- Fixture: feedback for the prediction id "v1-100". -/
def fb_a : Feedback :=
  { prediction_id := "v1-100", actual_value := 1, timestamp := 200,
    metadata := [] }

/-- Fixture: a second, different feedback for the same prediction id. -/
def fb_b : Feedback :=
  { prediction_id := "v1-100", actual_value := 0, timestamp := 300,
    metadata := [("note", "second")] }

/-- State after ingesting `p_a` at second 100. -/
def st_after_pred : ServerState :=
  (record_prediction emptyState p_a 100).1

/-- State after additionally recording feedback `fb_a`. -/
def st_with_feedback : ServerState :=
  (record_feedback st_after_pred fb_a).1

end MLMonitor

namespace MLMonitor

/-- Claim C1: the claim says two successful ingestPrediction calls with
the same model_version in the same wall-clock second still receive
distinct ids.  The code derives the id from the model version and the
current second only, so both calls succeed with the identical id
"v1-100" and the second write silently replaces the first record. -/
theorem C1_same_second_id_collision :
    (record_prediction emptyState p_a 100).2 = ApiResult.ok "v1-100" ∧
    (record_prediction st_after_pred p_b 100).2 = ApiResult.ok "v1-100" ∧
    alookup "v1-100" (record_prediction st_after_pred p_b 100).1.predictions
      = some (predictionRecordOf p_b "v1-100") ∧
    predictionRecordOf p_b "v1-100" ≠ predictionRecordOf p_a "v1-100" := by
  decide

/-- Claim C2: the claim says scheduling the same job twice (same dedupe
key) yields at most one analysis execution.  The code has no dedupe key:
submitting the same feedback twice enqueues the model-drift task a second
time, and the fire-and-forget runner executes it twice. -/
theorem C2_double_schedule_executes_twice :
    (record_feedback st_after_pred fb_a).2 = ApiResult.ok "feedback recorded" ∧
    (record_feedback st_with_feedback fb_a).2 = ApiResult.ok "feedback recorded" ∧
    attemptCount
      (runTasks (fun _ => true) (record_feedback st_with_feedback fb_a).1.tasks)
      (BackgroundTask.check_model_drift (predictionRecordOf p_a "v1-100") fb_a)
      = 2 := by
  decide

/-- Claim C3 counterexample: with feedback `fb_a` already stored for
prediction "v1-100", a second ingestFeedback call succeeds (no
DuplicateFeedback error) and replaces the stored feedback record. -/
theorem C3_second_feedback_overwrites :
    alookup "v1-100" st_with_feedback.feedbacks = some fb_a ∧
    (record_feedback st_with_feedback fb_b).2 = ApiResult.ok "feedback recorded" ∧
    alookup "v1-100" (record_feedback st_with_feedback fb_b).1.feedbacks
      = some fb_b := by
  decide

/-- Claim C3 as amended: for every prediction id that already has a stored
feedback record, a second ingestFeedback call for that id succeeds and
silently overwrites the previously stored feedback record (overwrite
policy; no DuplicateFeedback error is raised). -/
theorem C3_amended_overwrite_policy (st : ServerState) (fb old : Feedback)
    (hpred : (alookup fb.prediction_id st.predictions).isSome = true)
    (_hold : alookup fb.prediction_id st.feedbacks = some old) :
    (record_feedback st fb).2 = ApiResult.ok "feedback recorded" ∧
    alookup fb.prediction_id (record_feedback st fb).1.feedbacks = some fb := by
  cases h : alookup fb.prediction_id st.predictions with
  | none => rw [h] at hpred; simp [Option.isSome] at hpred
  | some pd => exact ⟨by simp [record_feedback, h], by simp [record_feedback, h, fsWrite, alookup]⟩

/-- Claim C3 witness: the amended theorem applied at the concrete state
that already holds feedback `fb_a` for prediction "v1-100". -/
theorem C3_amended_overwrite_policy_witness :
    (record_feedback st_with_feedback fb_b).2 = ApiResult.ok "feedback recorded" ∧
    alookup fb_b.prediction_id (record_feedback st_with_feedback fb_b).1.feedbacks
      = some fb_b :=
  C3_amended_overwrite_policy st_with_feedback fb_b fb_a (by decide) (by decide)

end MLMonitor

namespace MLMonitor

/-- Fixture: a state whose prediction directory already holds a record
under id "v1-100". -/
def st_seeded : ServerState :=
  { predictions := [("v1-100", predictionRecordOf p_a "v1-100")],
    feedbacks := [], tasks := [] }

/-- Claim C4: the claim says a put of a record whose id is already present
fails with AlreadyExists and never silently overwrites.  The code performs
no existence check: saving under an occupied id succeeds (no error
response) and the previously stored record is silently replaced. -/
theorem C4_put_silently_overwrites :
    (record_prediction st_seeded p_b 100).2 = ApiResult.ok "v1-100" ∧
    isErrorResponse (record_prediction st_seeded p_b 100).2 = false ∧
    alookup "v1-100" (record_prediction st_seeded p_b 100).1.predictions
      = some (predictionRecordOf p_b "v1-100") ∧
    predictionRecordOf p_b "v1-100" ≠ predictionRecordOf p_a "v1-100" := by
  decide

/-- Claim C5: a feedback submission whose prediction_id has no stored
prediction record fails with the 404 "Prediction ID not found" error (the
code's rendering of UnknownPrediction) and leaves the state unchanged, so
no feedback record is stored. -/
theorem C5_unknown_prediction_rejected (st : ServerState) (fb : Feedback)
    (h : alookup fb.prediction_id st.predictions = none) :
    record_feedback st fb = (st, ApiResult.httpError 404 "Prediction ID not found") := by
  simp [record_feedback, h]

/-- Claim C5 witness: feedback for id "v1-100" against the empty state. -/
theorem C5_unknown_prediction_rejected_witness :
    record_feedback emptyState fb_a =
      (emptyState, ApiResult.httpError 404 "Prediction ID not found") :=
  C5_unknown_prediction_rejected emptyState fb_a (by decide)

/-- Claim C7: the claim says a job whose collaborator fails is retried
with bounded exponential backoff up to an attempt ceiling and then marked
Failed/Exhausted.  The code fires each queued background task exactly
once: under an always-failing collaborator every task of the
prediction-plus-feedback flow is attempted exactly once, with no retry
and no recorded Failed/Exhausted state. -/
theorem C7_single_attempt_no_retry :
    attemptCount (runTasks (fun _ => false) st_with_feedback.tasks)
      (BackgroundTask.check_model_drift (predictionRecordOf p_a "v1-100") fb_a) = 1 ∧
    attemptCount (runTasks (fun _ => false) st_with_feedback.tasks)
      (BackgroundTask.calculate_metrics (predictionRecordOf p_a "v1-100") fb_a) = 1 ∧
    attemptCount (runTasks (fun _ => false) st_with_feedback.tasks)
      (BackgroundTask.check_data_drift p_a.features) = 1 := by
  decide

/-- Claim C8: record_feedback never mutates the prediction store: whether
it succeeds or returns the 404 error, the predictions directory of the
resulting state equals that of the input state. -/
theorem C8_feedback_preserves_predictions (st : ServerState) (fb : Feedback) :
    (record_feedback st fb).1.predictions = st.predictions := by
  unfold record_feedback
  cases alookup fb.prediction_id st.predictions <;> rfl

/-- Claim C9: a successful record_prediction call returns the generated id
and a subsequent lookup of that id (the lookup record_feedback performs)
observes a record whose id field is that id and whose remaining fields are
the submitted prediction's. -/
theorem C9_put_then_get_roundtrip (st : ServerState) (p : Prediction) (now : Nat) :
    (record_prediction st p now).2 = ApiResult.ok (newId p.model_version now) ∧
    alookup (newId p.model_version now) (record_prediction st p now).1.predictions
      = some (predictionRecordOf p (newId p.model_version now)) := by
  refine ⟨rfl, ?_⟩
  simp [record_prediction, fsWrite, alookup]

/-- Claim C10: get_metrics ignores every filter of the query: any two
queries evaluated at the same instant receive the identical response, and
that response always carries exactly accuracy 0.95 and f1_score 0.92. -/
theorem C10_metrics_ignore_query (q1 q2 : MetricQuery) (now : Nat) :
    get_metrics q1 now = get_metrics q2 now ∧
    get_metrics q1 now = ApiResult.ok
      [{ name := "accuracy", value := 95 / 100, timestamp := now },
       { name := "f1_score", value := 92 / 100, timestamp := now }] :=
  ⟨rfl, rfl⟩

end MLMonitor

namespace MLMonitor

/-- Last element of the nonempty list `r :: rs`. -/
def lastOf (r : ReportFile) : List ReportFile → ReportFile
  | [] => r
  | s :: rest => lastOf s rest

/-- When modification times strictly increase along the listing, the
Python max-by-mtime scan selects the last element. -/
theorem pyMaxByMtime_eq_lastOf :
    ∀ (rs : List ReportFile) (best : ReportFile),
      List.Chain' (fun a b => a.mtime < b.mtime) (best :: rs) →
      pyMaxByMtime best rs = lastOf best rs
  | [], _, _ => rfl
  | r :: rest, best, h => by
      rw [List.chain'_cons] at h
      have h2 := pyMaxByMtime_eq_lastOf rest r h.2
      simpa [pyMaxByMtime, lastOf, if_pos h.1] using h2

/-- Claim C6 counterexample: when no data-drift report exists, the
endpoint does not return a NotFound error; it returns the successful
empty-list body. -/
theorem C6_empty_is_ok_body :
    get_data_drift [] = ApiResult.ok DriftBody.noReports ∧
    isErrorResponse (get_data_drift []) = false := by
  decide

/-- Claim C6 as amended: the endpoint returns the report whose file has
the greatest modification time — the most recently appended report
whenever modification times strictly increase in append order — and when
no report exists it returns a successful empty-list body rather than a
NotFound error. -/
theorem C6_amended_latest_report (reports : List ReportFile)
    (hc : List.Chain' (fun a b => a.mtime < b.mtime) reports) :
    (reports = [] → get_data_drift reports = ApiResult.ok DriftBody.noReports) ∧
    ∀ r rs, reports = r :: rs →
      get_data_drift reports = ApiResult.ok (DriftBody.latestData (lastOf r rs).data) := by
  constructor
  · intro h; rw [h]; rfl
  · intro r rs h
    subst h
    show ApiResult.ok (DriftBody.latestData (pyMaxByMtime r rs).data) = _
    rw [pyMaxByMtime_eq_lastOf rs r hc]

/-- Fixture: two report files appended in order of increasing mtime. -/
def report1 : ReportFile := { name := "a.json", mtime := 10, data := "driftA" }

/-- Fixture: the later report file. -/
def report2 : ReportFile := { name := "b.json", mtime := 20, data := "driftB" }

/-- Claim C6 witness: the amended theorem applied to a two-report listing
with increasing modification times returns the later report's data. -/
theorem C6_amended_latest_report_witness :
    get_data_drift [report1, report2] =
      ApiResult.ok (DriftBody.latestData (lastOf report1 [report2]).data) :=
  (C6_amended_latest_report [report1, report2]
    (List.chain'_cons.mpr ⟨by decide, List.chain'_singleton _⟩)).2 report1 [report2] rfl

end MLMonitor
